import Mathlib

/-!
Shallow embedding of the YouTube echo-chamber simulation
(`src/echochamber/agents.py`, `src/echochamber/model.py`).

Python floats are modelled as rationals (`ℚ`); the arithmetic in the
source is plain `+ - * / min max abs`, all exact on the literals used.
Python dicts keyed by agent id are modelled as association lists
(`List (Nat × _)`) with first-match lookup and in-place update, which
matches insertion-ordered dict semantics.  Python string atoms (action
names, reward-table keys, interaction types) are modelled as inductive
atoms.  Code that can raise `KeyError` (a dict subscript on a missing
key) is modelled in `Except`, the error carrying the missing key.
Randomness never appears inside the functions embedded here: the random
draws of the source (`_choose_action`, the engagement draw) are passed
in as explicit arguments.
-/

namespace EchoChamber

/-- Actions available to a social bot (keys of its `q_values` dict). -/
inductive BotAction
  | cluster
  | coordinate
  | engage
  | amplify
deriving DecidableEq, Repr

/-- Actions available to a recommendation algorithm (keys of its `q_values` dict). -/
inductive RecAction
  | personalize
  | explore
  | exploit
deriving DecidableEq, Repr

/-- Every string that appears either as a key of a `rewards` dict in
`__init__` or as a subscript of `self.rewards[...]` in the two
`_execute_*_action` methods. -/
inductive RewardKey
  | cluster_growth
  | cluster_influence
  | engagement_growth
  | influence_success
  | coordination_success
  | successful_influence
  | recommendation_success
  | user_engagement
  | preference_match
deriving DecidableEq, Repr

/-- Interaction type strings passed to `_track_interaction`. -/
inductive InteractionType
  | bot_bot
  | bot_human
  | recommendation
deriving DecidableEq, Repr

/-- One entry of an agent's `connections` dict. -/
structure Connection where
  strength : ℚ
  last_interaction : Nat
  shared_preferences : Bool
  interaction_count : Nat
deriving DecidableEq, Repr

/-- One entry appended to `user_profiles[...]['engagement_history']`. -/
structure EngagementRecord where
  likes : Nat
  comments : Nat
  shares : Nat
deriving DecidableEq, Repr

/-- One entry of a recommendation algorithm's `user_profiles` dict.
`views0/1/2` are the `content_views` dict created as `{0: 0, 1: 0, 2: 0}`. -/
structure UserProfile where
  preference : Nat
  engagement_history : List EngagementRecord
  views0 : Nat
  views1 : Nat
  views2 : Nat
deriving DecidableEq, Repr

/-- The mutable fields of `EchoChamberAgent` used by the embedded methods.
The `interaction_history` dict is flattened into the `ih_*` fields
(`influenced_agents` is a set of ids, kept as a duplicate-free list). -/
structure Agent where
  unique_id : Nat
  type : Nat
  ai_subtype : Nat
  preference : Nat
  base_homophily : ℚ
  current_homophily : ℚ
  engagement_rate : ℚ
  likes : Nat
  comments : Nat
  shares : Nat
  echo_chamber_strength : ℚ
  amplification_power : ℚ
  bot_cluster_size : Nat
  human_influence_radius : Nat
  learning_rate : ℚ
  recommendation_strength : ℚ
  success_rate : ℚ
  connections : List (Nat × Connection)
  user_profiles : List (Nat × UserProfile)
  ih_bot_bot : Nat
  ih_bot_human : Nat
  ih_recommendation_influence : Nat
  ih_interaction_success : Nat
  ih_last_interaction_type : Option InteractionType
  ih_influenced_agents : List Nat
deriving DecidableEq, Repr

/-- First-match lookup in an association list (Python `d.get(k)` / `k in d`). -/
def lookupAssoc {α : Type} : List (Nat × α) → Nat → Option α
  | [], _ => none
  | (k, v) :: rest, key => if k = key then some v else lookupAssoc rest key

/-- In-place update of an existing key, append if absent (Python `d[k] = v`). -/
def setAssoc {α : Type} : List (Nat × α) → Nat → α → List (Nat × α)
  | [], key, v => [(key, v)]
  | (k, w) :: rest, key, v =>
      if k = key then (k, v) :: rest else (k, w) :: setAssoc rest key v

/-- Python `set.add`. -/
def insertNew (l : List Nat) (x : Nat) : List Nat :=
  if x ∈ l then l else l ++ [x]

/-- The bot `rewards` dict built in `__init__` for `ai_subtype == 0`
(lines 63-68 of agents.py).  A key absent from the dict maps to `none`. -/
def botRewards : RewardKey → Option ℚ
  | .cluster_growth => some 0.8
  | .cluster_influence => some 0.5
  | .engagement_growth => some 0.4
  | .influence_success => some 0.6
  | _ => none

/-- The recommendation-algorithm `rewards` dict built in `__init__` for
`ai_subtype == 1` (lines 83-87 of agents.py). -/
def recRewards : RewardKey → Option ℚ
  | .recommendation_success => some 0.7
  | .user_engagement => some 0.4
  | .preference_match => some 0.5
  | _ => none

/-- The uniform `self.connection_threshold = 0.3` set in `__init__`. -/
def connection_threshold : ℚ := 0.3

/-- `_update_recommendation_model` (agents.py lines 389-410).  On success the
new `success_rate` is written first and the strength update reads it. -/
def updateRecommendationModel (a : Agent) (success : Bool) : Agent :=
  if a.type ≠ 1 ∨ a.ai_subtype ≠ 1 then a
  else if success then
    let sr := a.success_rate * 0.9 + 0.1 * 1.0
    { a with
      success_rate := sr,
      recommendation_strength :=
        min 3.0 (a.recommendation_strength + a.learning_rate * sr) }
  else
    { a with
      success_rate := a.success_rate * 0.9,
      recommendation_strength :=
        max 0.5 (a.recommendation_strength - a.learning_rate * 0.5) }

/-- `_update_bot_cluster` (agents.py lines 222-234).  The `model.bot_clusters`
branch is guarded by `hasattr` and the model never defines that attribute,
so it is dead and omitted. -/
def updateBotCluster (a : Agent) (neighbors : List Agent) : Agent :=
  { a with
    bot_cluster_size :=
      (neighbors.filter (fun n => n.type == 1 && n.preference == a.preference)).length + 1 }

/-- `_amplify_bot_power` (agents.py lines 255-265). -/
def amplifyBotPower (a : Agent) : Agent :=
  let cluster_bonus := min 0.5 ((a.bot_cluster_size : ℚ) * 0.1)
  let engagement_bonus :=
    min 0.5 (((a.likes : ℚ) + (a.comments : ℚ) * 2 + (a.shares : ℚ) * 3) * 0.01)
  { a with
    amplification_power := min 3.0 (1.0 + cluster_bonus + engagement_bonus),
    human_influence_radius := min 3 (1 + a.bot_cluster_size / 3) }

/-- The power-boost trigger inside `step` (agents.py lines 209-217): in the
AI branch (`type != 0`), run `_amplify_bot_power` iff the agent is a social
bot whose `bot_cluster_size` exceeds 1. -/
def botPowerPhase (a : Agent) : Agent :=
  if a.type ≠ 0 ∧ a.ai_subtype = 0 ∧ 1 < a.bot_cluster_size then amplifyBotPower a else a

/-- The per-agent happiness reading used by the data collector
(model.py line 144: `a.current_homophily <= a.echo_chamber_strength`). -/
def isHappy (a : Agent) : Bool :=
  decide (a.current_homophily ≤ a.echo_chamber_strength)

/-- `_track_interaction` (agents.py lines 648-674). -/
def trackInteraction (a : Agent) (other : Agent) (itype : InteractionType)
    (success : Bool) : Agent :=
  let a1 :=
    match itype with
    | .bot_bot =>
      if a.type = 1 ∧ other.type = 1 then
        let b := { a with ih_bot_bot := a.ih_bot_bot + 1 }
        if success then
          { b with
            ih_interaction_success := b.ih_interaction_success + 1,
            ih_influenced_agents := insertNew b.ih_influenced_agents other.unique_id }
        else b
      else a
    | .bot_human =>
      if a.type = 1 ∧ other.type = 0 then
        let b := { a with ih_bot_human := a.ih_bot_human + 1 }
        if success then
          { b with
            ih_interaction_success := b.ih_interaction_success + 1,
            ih_influenced_agents := insertNew b.ih_influenced_agents other.unique_id }
        else b
      else a
    | .recommendation =>
      if a.type = 1 ∧ a.ai_subtype = 1 then
        if success then
          { a with
            ih_recommendation_influence := a.ih_recommendation_influence + 1,
            ih_influenced_agents := insertNew a.ih_influenced_agents other.unique_id }
        else a
      else a
  { a1 with ih_last_interaction_type := some itype }

/-- `_analyze_user_preferences` (agents.py lines 334-358): create the profile
on first sight, bump the view counter for the user's current preference and
append an engagement snapshot. -/
def analyzeUserPreferences (a : Agent) (user : Agent) : Agent :=
  if a.type ≠ 1 ∨ a.ai_subtype ≠ 1 then a
  else
    let p :=
      match lookupAssoc a.user_profiles user.unique_id with
      | some p => p
      | none =>
        { preference := user.preference, engagement_history := [],
          views0 := 0, views1 := 0, views2 := 0 }
    let p :=
      if user.preference = 0 then { p with views0 := p.views0 + 1 }
      else if user.preference = 1 then { p with views1 := p.views1 + 1 }
      else { p with views2 := p.views2 + 1 }
    let p :=
      { p with
        engagement_history :=
          p.engagement_history ++
            [{ likes := user.likes, comments := user.comments, shares := user.shares }] }
    { a with user_profiles := setAssoc a.user_profiles user.unique_id p }

/-- Read of `profile['content_views'][k]` for `k` in the dict `{0, 1, 2}`. -/
def UserProfile.views (p : UserProfile) (k : Nat) : Nat :=
  if k = 0 then p.views0 else if k = 1 then p.views1 else p.views2

/-- `_generate_recommendations` (agents.py lines 360-387).  `none` is the
Python `None` returned by the non-recommendation-algorithm guard; the loop
variables `preferred_content` and the unused `engagement_score` are folded
into the head of the filtered key list, taken in dict insertion order
`[0, 1, 2]`. -/
def generateRecommendations (a : Agent) (target : Agent) : Option Nat :=
  if a.type ≠ 1 ∨ a.ai_subtype ≠ 1 then none
  else
    match lookupAssoc a.user_profiles target.unique_id with
    | none => some target.preference
    | some profile =>
      let maxViews := max profile.views0 (max profile.views1 profile.views2)
      let preferred := [0, 1, 2].filter (fun k => profile.views k = maxViews)
      some (preferred.headD target.preference)

/-- Left fold of a loop body that can raise; an exception aborts the loop
and propagates (the partial state mutated before the raise is dropped,
which no embedded theorem depends on). -/
def foldE (f : Agent × ℚ → Agent → Except RewardKey (Agent × ℚ)) :
    List Agent → Agent × ℚ → Except RewardKey (Agent × ℚ)
  | [], s => Except.ok s
  | u :: rest, s =>
    match f s u with
    | Except.ok s2 => foldE f rest s2
    | Except.error e => Except.error e

/-- Lookup of `self.rewards[k]` for a social bot: `KeyError` when absent. -/
def botRewardLookup (k : RewardKey) (s : Agent × ℚ) : Except RewardKey (Agent × ℚ) :=
  match botRewards k with
  | some v => Except.ok (s.1, s.2 + v)
  | none => Except.error k

/-- Lookup of `self.rewards[k]` for a recommendation algorithm. -/
def recRewardLookup (k : RewardKey) (s : Agent × ℚ) : Except RewardKey (Agent × ℚ) :=
  match recRewards k with
  | some v => Except.ok (s.1, s.2 + v)
  | none => Except.error k

/-- `_execute_bot_action` (agents.py lines 520-574).  In the `cluster` branch
`success` is the `None` returned by `_update_bot_cluster`, which is falsy, so
no reward is ever added there.  `coordinate` and `engage` subscript the
rewards dict with keys that `__init__` never put in it. -/
def executeBotAction (a : Agent) (action : BotAction) (neighbors : List Agent) :
    Except RewardKey (Agent × ℚ) :=
  match action with
  | .cluster =>
    let similar_bots :=
      neighbors.filter (fun n => n.type == 1 && n.preference == a.preference)
    Except.ok
      (similar_bots.foldl
        (fun s bot =>
          let a1 := updateBotCluster s.1 neighbors
          (trackInteraction a1 bot .bot_bot false, s.2))
        (a, 0))
  | .coordinate =>
    let similar_bots := neighbors.filter (fun n => n.type == 1)
    foldE
      (fun s bot =>
        botRewardLookup .coordination_success (trackInteraction s.1 bot .bot_bot true, s.2))
      similar_bots (a, 0)
  | .engage =>
    let human_neighbors := neighbors.filter (fun n => n.type == 0)
    foldE
      (fun s human =>
        let success := decide (human.base_homophily < human.engagement_rate)
        let a1 := trackInteraction s.1 human .bot_human success
        if success then botRewardLookup .successful_influence (a1, s.2)
        else Except.ok (a1, s.2))
      human_neighbors (a, 0)
  | .amplify =>
    let a1 :=
      { a with likes := a.likes + 1, comments := a.comments + 1, shares := a.shares + 1 }
    botRewardLookup .engagement_growth (a1, 0)

/-- `_execute_recommendation_action` (agents.py lines 576-624).  Note that
`_update_recommendation_model` is not among the calls this method makes:
neither `success_rate` nor `recommendation_strength` is touched here. -/
def executeRecommendationAction (a : Agent) (action : RecAction)
    (neighbors : List Agent) : Except RewardKey (Agent × ℚ) :=
  let users := neighbors.filter (fun n => n.type == 0)
  match action with
  | .personalize =>
    foldE
      (fun s user =>
        let a1 := analyzeUserPreferences s.1 user
        let success := decide (user.base_homophily < user.engagement_rate)
        let a2 := trackInteraction a1 user .recommendation success
        if success then recRewardLookup .preference_match (a2, s.2)
        else Except.ok (a2, s.2))
      users (a, 0)
  | .explore =>
    foldE
      (fun s user =>
        let recommended := generateRecommendations s.1 user
        if recommended ≠ some user.preference then
          let success := decide (user.base_homophily < user.engagement_rate)
          let a1 := trackInteraction s.1 user .recommendation success
          if success then recRewardLookup .user_engagement (a1, s.2)
          else Except.ok (a1, s.2)
        else Except.ok s)
      users (a, 0)
  | .exploit =>
    foldE
      (fun s user =>
        let recommended := generateRecommendations s.1 user
        let success := decide (recommended = some user.preference)
        let a1 := trackInteraction s.1 user .recommendation success
        if success then recRewardLookup .recommendation_success (a1, s.2)
        else Except.ok (a1, s.2))
      users (a, 0)

/-- `_calculate_direct_strength` (agents.py lines 464-479). -/
def directStrength (a other : Agent) : ℚ :=
  let preference_match : ℚ := if a.preference = other.preference then 1.0 else 0.3
  let engagement_similarity :=
    min 1.0 ((|(a.likes : ℚ) - (other.likes : ℚ)| * 0.3 +
              |(a.comments : ℚ) - (other.comments : ℚ)| * 0.4 +
              |(a.shares : ℚ) - (other.shares : ℚ)| * 0.3) / 10)
  (preference_match + engagement_similarity) / 2

/-- `_calculate_indirect_strength` (agents.py lines 481-498), with `conns`
the current value of `self.connections` (it changes along the update loop).
The shared keys are traversed in the insertion order of `conns`; the sum is
order-independent anyway. -/
def indirectStrength (conns : List (Nat × Connection)) (other : Agent) : ℚ :=
  let shared := conns.filter (fun p => (lookupAssoc other.connections p.1).isSome)
  if shared = [] then 0
  else
    min 1.0
      ((shared.map (fun p =>
          match lookupAssoc other.connections p.1 with
          | some c => min p.2.strength c.strength
          | none => 0)).sum / (shared.length : ℚ))

/-- `_calculate_connection_strength` (agents.py lines 443-462), with the
fixed `network_weights` `{direct: 0.7, indirect: 0.3}` set by `__init__`. -/
def connectionStrength (a : Agent) (conns : List (Nat × Connection))
    (other : Agent) : ℚ :=
  let total := directStrength a other * 0.7 + indirectStrength conns other * 0.3
  let total :=
    if a.type = 1 ∧ a.ai_subtype = 1 ∧ other.type = 0 then
      total + (if 0.5 < a.success_rate then 1.0 else 0.0) * 0.2
    else total
  min 1.0 total

/-- One iteration of the neighbor loop of `_update_network_connections`
(agents.py lines 412-441): gated create/blend, then the prune that runs at
the end of every iteration. -/
def updateConnOne (a : Agent) (step_count : Nat) (n : Agent)
    (conns : List (Nat × Connection)) : List (Nat × Connection) :=
  let cs := connectionStrength a conns n
  let conns2 :=
    if connection_threshold < cs then
      match lookupAssoc conns n.unique_id with
      | none =>
        conns ++ [(n.unique_id,
          { strength := cs, last_interaction := step_count,
            shared_preferences := a.preference == n.preference,
            interaction_count := 1 })]
      | some c =>
        setAssoc conns n.unique_id
          { c with
            strength := c.strength * 0.8 + cs * 0.2,
            last_interaction := step_count,
            interaction_count := c.interaction_count + 1 }
    else conns
  conns2.filter (fun p => connection_threshold < p.2.strength)

/-- `_update_network_connections` over a whole neighbor list, threading the
evolving `self.connections`. -/
def updateNetworkConnections (a : Agent) (step_count : Nat)
    (neighbors : List Agent) : List (Nat × Connection) :=
  neighbors.foldl (fun conns n => updateConnOne a step_count n conns) a.connections

/-- `_calculate_bot_cluster_influence` (agents.py lines 236-253). -/
def calculateBotClusterInfluence (a : Agent) (neighbors : List Agent) : ℚ :=
  let bots := neighbors.filter (fun n => n.type == 1)
  if bots = [] then 0
  else
    min 0.15
      ((bots.filter (fun b => b.preference == a.preference)).map
        (fun b => min 0.1 ((b.bot_cluster_size : ℚ) * 0.02) * b.amplification_power)).sum

/-- The similarity computation of `step` (agents.py lines 146-199), as a pure
function of the agent (with its connections already refreshed) and the
neighborhood.  The `_update_bot_cluster` side effect inside this block does
not feed back into the similarity value and is modelled by `stepClusterPhase`. -/
def similarityFraction (a : Agent) (neighbors : List Agent) : ℚ :=
  if neighbors = [] then 0
  else
    let nLen : ℚ := neighbors.length
    let content_similarity :=
      ((neighbors.filter (fun n => n.preference == a.preference)).length : ℚ) / nLen
    let bot_neighbors := (neighbors.filter (fun n => n.type == 1)).length
    let bot_similarity :=
      (neighbors.filter (fun n => n.type == 1 && n.preference == a.preference)).length
    let bot_influence : ℚ :=
      if a.type = 1 ∧ a.ai_subtype = 0 then
        if 0 < bot_similarity then ((bot_similarity : ℚ) / nLen) * 0.4 else 0
      else if a.type = 0 then
        if 0 < bot_neighbors then
          ((bot_similarity : ℚ) / (bot_neighbors : ℚ)) * 0.3 +
            calculateBotClusterInfluence a neighbors
        else 0
      else 0
    let engagement_factor :=
      min 0.2 (((a.likes : ℚ) * 0.05 + (a.comments : ℚ) * 0.10 +
                (a.shares : ℚ) * 0.15) / nLen)
    let sim := content_similarity * 0.5 + bot_influence + engagement_factor
    let sim :=
      if a.connections ≠ [] then
        sim * 0.9 +
          ((a.connections.map (fun p => p.2.strength)).sum /
            (a.connections.length : ℚ)) * 0.1
      else sim
    min 1.0 sim

/-- The movement decision of `step` (agents.py lines 142-207): connections
are refreshed first, the similarity is computed, and only the human branch
(`type == 0`) calls `move_to_empty`, exactly when the similarity is strictly
below `current_homophily`. -/
def stepRelocates (a : Agent) (neighbors : List Agent) (step_count : Nat) : Bool :=
  let a1 := { a with connections := updateNetworkConnections a step_count neighbors }
  a1.type == 0 && decide (similarityFraction a1 neighbors < a1.current_homophily)

/-- The `_update_bot_cluster` call site inside `step` (agents.py lines
146-162): reached only in the nonempty-neighborhood branch, for social bots,
and only when at least one AI neighbor (of any preference) is present. -/
def stepClusterPhase (a : Agent) (neighbors : List Agent) : Agent :=
  if neighbors = [] then a
  else if a.type = 1 ∧ a.ai_subtype = 0 ∧
          0 < (neighbors.filter (fun n => n.type == 1)).length then
    updateBotCluster a neighbors
  else a

/-- The value of `bot_cluster_size` when a social bot's `step` returns, as a
function of the action the RL loop chose: the similarity-phase update above,
then the per-similar-bot updates of the `cluster` action (agents.py lines
543-550; no other action writes the field). -/
def stepEndClusterSize (a : Agent) (neighbors : List Agent) (action : BotAction) : Nat :=
  let a1 := stepClusterPhase a neighbors
  let a2 :=
    if action = BotAction.cluster then
      (neighbors.filter (fun n : Agent => n.type == 1 && n.preference == a1.preference)).foldl
        (fun acc _ => updateBotCluster acc neighbors) a1
    else a1
  a2.bot_cluster_size

/-- The boost chosen by `_process_engagement` (agents.py lines 302-319) from
the single uniform draw `action_type`. -/
def engagementBoost (r : ℚ) : ℚ :=
  if r < 0.5 then 0.05 else if r < 0.8 then 0.10 else 0.15

/-- `_process_engagement` (agents.py lines 302-332): bump one engagement
counter and recompute `current_homophily` from `base_homophily`. -/
def processEngagement (a : Agent) (r : ℚ) : Agent :=
  let boost := engagementBoost r
  let a :=
    if r < 0.5 then { a with likes := a.likes + 1 }
    else if r < 0.8 then { a with comments := a.comments + 1 }
    else { a with shares := a.shares + 1 }
  if a.type = 0 then
    { a with
      current_homophily :=
        min 1.0 (a.base_homophily + boost * a.echo_chamber_strength) }
  else if a.type = 1 ∧ a.ai_subtype = 0 then
    { a with
      current_homophily :=
        min 1.0 (a.base_homophily +
          boost * 2.0 * (1.0 + (a.bot_cluster_size : ℚ) * 0.1)) }
  else a

/-- An unbroken run of `_update_recommendation_model` calls with a constant
outcome. -/
def recIter (success : Bool) : Nat → Agent → Agent
  | 0, a => a
  | n + 1, a => updateRecommendationModel (recIter success n a) success

/-- The keyword parameters of `EchoChamber.__init__` (model.py lines 10-23). -/
structure ModelConfig where
  height : Nat
  width : Nat
  density : ℚ
  human_homophily : ℚ
  ai_homophily : ℚ
  human_engagement : ℚ
  ai_engagement : ℚ
  ai_ratio : ℚ
  recsys_ratio : ℚ
  radius : Nat
deriving DecidableEq, Repr

/-- The model attributes `__init__` stores before building the grid
(model.py lines 41-67). -/
structure ModelState where
  height : Nat
  width : Nat
  density : ℚ
  human_homophily : ℚ
  ai_homophily : ℚ
  human_engagement : ℚ
  ai_engagement : ℚ
  ai_ratio : ℚ
  recsys_ratio : ℚ
  radius : Nat
  step_count : Nat
  happy : Nat
deriving DecidableEq, Repr

/-- The parameter handling of `EchoChamber.__init__` (model.py lines 10-96):
every parameter is stored verbatim and no code path inspects a parameter's
range or raises on its value, so construction is always `Except.ok`.  (Grid
placement and data collection consume the values but never validate them.) -/
def echoChamberInit (cfg : ModelConfig) : Except String ModelState :=
  Except.ok
    { height := cfg.height, width := cfg.width, density := cfg.density,
      human_homophily := cfg.human_homophily, ai_homophily := cfg.ai_homophily,
      human_engagement := cfg.human_engagement, ai_engagement := cfg.ai_engagement,
      ai_ratio := ModelConfig.ai_ratio cfg, recsys_ratio := ModelConfig.recsys_ratio cfg,
      radius := cfg.radius, step_count := 0, happy := 0 }

/-- A freshly constructed human user (`__init__` with `agent_type = 0`).
The AI-only attributes keep their field defaults; no human code path reads
them. -/
def mkHuman (uid pref : Nat) (baseH engage : ℚ) : Agent :=
  { unique_id := uid, type := 0, ai_subtype := 0, preference := pref,
    base_homophily := baseH, current_homophily := baseH, engagement_rate := engage,
    likes := 0, comments := 0, shares := 0, echo_chamber_strength := 0,
    amplification_power := 1.0, bot_cluster_size := 0, human_influence_radius := 1,
    learning_rate := 0.1, recommendation_strength := 1.0, success_rate := 0,
    connections := [], user_profiles := [], ih_bot_bot := 0, ih_bot_human := 0,
    ih_recommendation_influence := 0, ih_interaction_success := 0,
    ih_last_interaction_type := none, ih_influenced_agents := [] }

/-- A freshly constructed social bot (`__init__` with `agent_type = 1`,
`ai_subtype = 0`). -/
def mkBot (uid pref : Nat) (baseH engage : ℚ) : Agent :=
  { mkHuman uid pref baseH engage with type := 1, ai_subtype := 0 }

/-- A freshly constructed recommendation algorithm (`__init__` with
`agent_type = 1`, `ai_subtype = 1`): `recommendation_strength = 1.0`,
`success_rate = 0.0`, empty `user_profiles`. -/
def mkRecSys (uid pref : Nat) (baseH engage : ℚ) : Agent :=
  { mkHuman uid pref baseH engage with type := 1, ai_subtype := 1 }

/-- A fresh recommendation algorithm used as a concrete input. -/
def rAlgA : Agent := mkRecSys 1 0 0.4 0.5

/-- A human whose engagement does not exceed its homophily, with no stored
profile, so the default recommendation is its own preference. -/
def uA : Agent := mkHuman 7 1 0.5 0.2

/-- Claim C1: the spec says the Learn rule
(`_update_recommendation_model`) always runs after a recommendation attempt
made during `explore`/`exploit`.  It does not: `_execute_recommendation_action`
never calls it, and no other code does.  Concretely, a fresh recommendation
algorithm that makes one successful `exploit` attempt (the attempt is tracked
and the 0.7 reward paid) ends the call with `success_rate` still 0 and
`recommendation_strength` still 1, while the Learn rule the claim describes
would have produced 0.1 and 1.01 (and 0 and 0.95 on failure). -/
theorem c1_learn_rule_never_invoked :
    (executeRecommendationAction rAlgA RecAction.exploit [uA]).toOption.map
        (fun s => (s.1.success_rate, s.1.recommendation_strength,
                   s.1.ih_recommendation_influence, s.2)) =
      some (0, 1, 1, 0.7) ∧
    (updateRecommendationModel rAlgA true).success_rate = 0.1 ∧
    (updateRecommendationModel rAlgA true).recommendation_strength = 1.01 ∧
    (updateRecommendationModel rAlgA false).success_rate = 0 ∧
    (updateRecommendationModel rAlgA false).recommendation_strength = 0.95 := by
  norm_num [executeRecommendationAction, foldE, rAlgA, uA, mkRecSys, mkHuman,
    generateRecommendations, lookupAssoc, trackInteraction, insertNew,
    recRewardLookup, recRewards, updateRecommendationModel, Except.toOption]

/-- A fresh social bot used as a concrete input. -/
def cBotA : Agent := mkBot 2 0 0.4 0.5

/-- A second social bot, a neighbor of `cBotA` with a different preference. -/
def aiN : Agent := mkBot 3 1 0.4 0.5

/-- A human neighbor whose engagement exceeds its homophily. -/
def uEager : Agent := mkHuman 8 0 0.3 0.9

/-- Claim C2: the spec says executing a bot action always returns an
accumulated reward with every reward-table lookup hitting a present key.
The bot reward table built in `__init__` has keys `cluster_growth`,
`cluster_influence`, `engagement_growth`, `influence_success`, but the
`coordinate` branch subscripts `coordination_success` and the `engage`
branch subscripts `successful_influence`; both raise `KeyError` whenever
reached (one AI neighbor, resp. one sufficiently engaged human neighbor). -/
theorem c2_bot_reward_lookup_fails :
    executeBotAction cBotA BotAction.coordinate [aiN] =
      Except.error RewardKey.coordination_success ∧
    executeBotAction cBotA BotAction.engage [uEager] =
      Except.error RewardKey.successful_influence ∧
    botRewards RewardKey.coordination_success = none ∧
    botRewards RewardKey.successful_influence = none := by
  norm_num [executeBotAction, foldE, cBotA, aiN, uEager, mkBot, mkHuman,
    trackInteraction, insertNew, botRewardLookup, botRewards]

/-- A malformed configuration: negative homophily, density and AI ratio
outside `[0, 1]`. -/
def badCfg : ModelConfig :=
  { height := 20, width := 20, density := 1.5, human_homophily := -0.5,
    ai_homophily := 0.4, human_engagement := 0.5, ai_engagement := 0.5,
    ai_ratio := 2, recsys_ratio := 0.3, radius := 1 }

/-- Claim C9, counterexample: constructing the model with a negative
homophily and out-of-range density and AI ratio is not rejected — the
constructor succeeds. -/
theorem c9_malformed_config_accepted :
    badCfg.human_homophily < 0 ∧ 1 < badCfg.density ∧
    1 < ModelConfig.ai_ratio badCfg ∧
    (echoChamberInit badCfg).toOption.isSome = true := by
  norm_num [badCfg, echoChamberInit, Except.toOption]

/-- Claim C9, amended: `EchoChamber.__init__` performs no validation at all;
every configuration, malformed or not, is accepted and its parameters are
stored unchanged. -/
theorem c9_init_never_rejects (cfg : ModelConfig) :
    (echoChamberInit cfg).toOption.map
        (fun s => (s.density, s.human_homophily, s.ai_homophily,
                   ModelState.ai_ratio s, ModelState.recsys_ratio s)) =
      some (cfg.density, cfg.human_homophily, cfg.ai_homophily,
            ModelConfig.ai_ratio cfg, ModelConfig.recsys_ratio cfg) := rfl

/-- Claim C9, instance of the amended statement at the malformed
configuration. -/
theorem c9_init_never_rejects_witness :
    (echoChamberInit badCfg).toOption.map
        (fun s => (s.density, s.human_homophily, s.ai_homophily,
                   ModelState.ai_ratio s, ModelState.recsys_ratio s)) =
      some (badCfg.density, badCfg.human_homophily, badCfg.ai_homophily,
            ModelConfig.ai_ratio badCfg, ModelConfig.recsys_ratio badCfg) :=
  c9_init_never_rejects badCfg

/-- A social bot in a cluster of 3 with engagement counters 10/5/2 that is
not happy (`echo_chamber_strength` 0 is below `current_homophily` 0.4). -/
def cBotUnhappy : Agent :=
  { mkBot 4 0 0.4 0.5 with bot_cluster_size := 3, likes := 10, comments := 5, shares := 2 }

/-- Claim C4, counterexample: the power boost is not gated on the agent
ending the tick happy.  A bot that is not happy by the model's happiness
reading but has `bot_cluster_size = 3` still gets amplified, to exactly the
claimed 1.56 (with `likes=10, comments=5, shares=2`) and influence radius 2. -/
theorem c4_amplifies_while_unhappy :
    isHappy cBotUnhappy = false ∧ 1 < cBotUnhappy.bot_cluster_size ∧
    cBotUnhappy.amplification_power = 1 ∧
    (botPowerPhase cBotUnhappy).amplification_power = 1.56 ∧
    (botPowerPhase cBotUnhappy).human_influence_radius = 2 := by
  norm_num [isHappy, cBotUnhappy, mkBot, mkHuman, botPowerPhase, amplifyBotPower,
    min_def]

/-- Claim C4, amended: for a social bot the amplification growth of `step`
runs exactly when `bot_cluster_size > 1` — happiness is not consulted — and
then sets `amplification_power` and `human_influence_radius` by the claimed
formulas; with `bot_cluster_size ≤ 1` the agent is left untouched. -/
theorem c4_power_boost_condition (a : Agent) (h1 : a.type = 1) (h2 : a.ai_subtype = 0) :
    (1 < a.bot_cluster_size →
      (botPowerPhase a).amplification_power =
        min 3.0 (1.0 + min 0.5 ((a.bot_cluster_size : ℚ) * 0.1) +
          min 0.5 (((a.likes : ℚ) + (a.comments : ℚ) * 2 + (a.shares : ℚ) * 3) * 0.01)) ∧
      (botPowerPhase a).human_influence_radius = min 3 (1 + a.bot_cluster_size / 3)) ∧
    (¬ 1 < a.bot_cluster_size → botPowerPhase a = a) := by
  constructor
  · intro hc
    simp [botPowerPhase, amplifyBotPower, h1, h2, hc]
  · intro hc
    simp [botPowerPhase, hc]

/-- Claim C4, witness: the amended statement applied to the concrete bot. -/
theorem c4_power_boost_condition_witness :
    cBotUnhappy.type = 1 ∧ cBotUnhappy.ai_subtype = 0 ∧
    ((1 < cBotUnhappy.bot_cluster_size →
      (botPowerPhase cBotUnhappy).amplification_power =
        min 3.0 (1.0 + min 0.5 ((cBotUnhappy.bot_cluster_size : ℚ) * 0.1) +
          min 0.5 (((cBotUnhappy.likes : ℚ) + (cBotUnhappy.comments : ℚ) * 2 +
            (cBotUnhappy.shares : ℚ) * 3) * 0.01)) ∧
      (botPowerPhase cBotUnhappy).human_influence_radius =
        min 3 (1 + cBotUnhappy.bot_cluster_size / 3)) ∧
    (¬ 1 < cBotUnhappy.bot_cluster_size → botPowerPhase cBotUnhappy = cBotUnhappy)) :=
  ⟨rfl, rfl, c4_power_boost_condition cBotUnhappy rfl rfl⟩

/-- The body of the `cluster`-action loop keeps the preference and always
rewrites `bot_cluster_size` to the same-preference neighbor count plus one. -/
theorem foldl_updateBotCluster (ns : List Agent) (l : List Agent) (b : Agent) :
    (l.foldl (fun acc _ => updateBotCluster acc ns) b).preference = b.preference ∧
    (l.foldl (fun acc _ => updateBotCluster acc ns) b).bot_cluster_size =
      (if l = [] then b.bot_cluster_size
       else (ns.filter (fun n => n.type == 1 && n.preference == b.preference)).length + 1) := by
  induction l generalizing b with
  | nil => exact ⟨rfl, by simp⟩
  | cons x t ih =>
    have h := ih (updateBotCluster b ns)
    have h2 := h.2
    refine ⟨h.1, ?_⟩
    rw [if_neg (List.cons_ne_nil x t)]
    rcases eq_or_ne t ([] : List Agent) with ht | ht
    · rw [if_pos ht] at h2
      exact h2
    · rw [if_neg ht] at h2
      exact h2

/-- An isolated fresh social bot: no neighbors at all, `bot_cluster_size`
still 0 from `__init__`. -/
def isoBot : Agent := mkBot 5 0 0.4 0.5

/-- Claim C5, counterexample: a social bot with no same-preference AI
neighbors (here: no neighbors at all) ends its step with `bot_cluster_size`
0, not 1 — the field is only recomputed when an AI neighbor is present, so
the stale initial value survives. -/
theorem c5_isolated_bot_keeps_stale_cluster :
    stepEndClusterSize isoBot [] BotAction.engage = 0 ∧
    stepEndClusterSize isoBot [] BotAction.engage ≠ 1 := by
  constructor <;> simp [stepEndClusterSize, stepClusterPhase, isoBot, mkBot, mkHuman]

/-- Claim C5, amended: a social bot's `bot_cluster_size` is recomputed fresh
(same-preference AI neighbors plus self, independent of its previous value)
exactly when the tick's neighborhood contains at least one AI agent of any
preference; with no AI neighbor the previous value — 0 for a fresh bot — is
kept unchanged, whatever action was chosen. -/
theorem c5_cluster_recompute_condition (a : Agent) (ns : List Agent)
    (act : BotAction) (h1 : a.type = 1) (h2 : a.ai_subtype = 0) :
    (0 < (ns.filter (fun n => n.type == 1)).length →
      stepEndClusterSize a ns act =
        (ns.filter (fun n => n.type == 1 && n.preference == a.preference)).length + 1) ∧
    ((ns.filter (fun n => n.type == 1)).length = 0 →
      stepEndClusterSize a ns act = a.bot_cluster_size) := by
  constructor
  · intro hpos
    have hne : ns ≠ [] := by
      intro h
      subst h
      simp at hpos
    have hphase : stepClusterPhase a ns = updateBotCluster a ns := by
      simp [stepClusterPhase, hne, h1, h2, hpos]
    by_cases hact : act = BotAction.cluster
    · subst hact
      simp only [stepEndClusterSize, hphase, if_pos rfl, if_true]
      have h := foldl_updateBotCluster ns
        (ns.filter (fun n : Agent =>
          n.type == 1 && n.preference == (updateBotCluster a ns).preference))
        (updateBotCluster a ns)
      have h2 := h.2
      rcases eq_or_ne
          (ns.filter (fun n : Agent =>
            n.type == 1 && n.preference == (updateBotCluster a ns).preference))
          ([] : List Agent) with hf | hf
      · rw [if_pos hf] at h2
        rw [h2]
        rfl
      · rw [if_neg hf] at h2
        rw [h2]
        rfl
    · simp only [stepEndClusterSize, hphase, if_neg hact]
      rfl
  · intro hzero
    have hfil : ns.filter (fun n : Agent => n.type == 1) = [] :=
      List.length_eq_zero.mp hzero
    have hnone : ∀ n ∈ ns, ¬(n.type == 1) = true := List.filter_eq_nil_iff.mp hfil
    have hphase : stepClusterPhase a ns = a := by
      rcases eq_or_ne ns ([] : List Agent) with h | h
      · simp [stepClusterPhase, h]
      · simp [stepClusterPhase, h, hzero]
    have hfil2 : ns.filter (fun n : Agent =>
        n.type == 1 && n.preference == a.preference) = [] := by
      refine List.filter_eq_nil_iff.mpr (fun n hn => ?_)
      simp only [Bool.and_eq_true, not_and]
      intro ht
      exact absurd ht (hnone n hn)
    by_cases hact : act = BotAction.cluster
    · subst hact
      simp only [stepEndClusterSize, hphase, if_pos rfl, if_true, hfil2, List.foldl_nil]
    · simp only [stepEndClusterSize, hphase, if_neg hact]

/-- Two same-preference bots used as witness inputs. -/
def wBot : Agent := mkBot 10 2 0.4 0.5

/-- Same-preference AI neighbor of `wBot`. -/
def wBot2 : Agent := mkBot 11 2 0.4 0.5

/-- Claim C5, witness: with one same-preference AI neighbor present the
recomputation fires. -/
theorem c5_cluster_recompute_condition_witness :
    wBot.type = 1 ∧ wBot.ai_subtype = 0 ∧
    ((0 < ([wBot2].filter (fun n => n.type == 1)).length →
      stepEndClusterSize wBot [wBot2] BotAction.engage =
        ([wBot2].filter (fun n => n.type == 1 && n.preference == wBot.preference)).length + 1) ∧
    (([wBot2].filter (fun n => n.type == 1)).length = 0 →
      stepEndClusterSize wBot [wBot2] BotAction.engage = wBot.bot_cluster_size)) :=
  ⟨rfl, rfl, c5_cluster_recompute_condition wBot [wBot2] BotAction.engage rfl rfl⟩

/-- An AI agent (recommendation algorithm) with nonzero homophily and an
empty neighborhood. -/
def aiIdle : Agent := mkRecSys 6 0 0.4 0.5

/-- Claim C6, counterexample: an AI agent with an empty neighbor set and
`current_homophily = 0.4 ≠ 0` does not relocate — `move_to_empty` is only in
the human branch of `step` — although its similarity is 0. -/
theorem c6_ai_agent_never_relocates :
    similarityFraction aiIdle [] = 0 ∧ aiIdle.current_homophily ≠ 0 ∧
    stepRelocates aiIdle [] 0 = false := by
  refine ⟨rfl, by norm_num [aiIdle, mkRecSys, mkHuman], ?_⟩
  simp [stepRelocates, updateNetworkConnections, aiIdle, mkRecSys, mkHuman]

/-- Claim C6, amended: for a human agent with an empty neighbor set the
similarity fraction is exactly 0 and the agent relocates in that step iff
its `current_homophily` is positive (in particular it stays put when
`current_homophily` is 0). -/
theorem c6_empty_neighborhood_human (a : Agent) (sc : Nat) (h : a.type = 0) :
    similarityFraction a [] = 0 ∧
    (stepRelocates a [] sc = true ↔ 0 < a.current_homophily) := by
  refine ⟨rfl, ?_⟩
  simp [stepRelocates, updateNetworkConnections, similarityFraction, h]

/-- A fresh human with positive homophily, the witness input. -/
def hIdle : Agent := mkHuman 12 0 0.4 0.5

/-- Claim C6, witness: the amended statement applied to the concrete human. -/
theorem c6_empty_neighborhood_human_witness :
    hIdle.type = 0 ∧
    (similarityFraction hIdle [] = 0 ∧
      (stepRelocates hIdle [] 0 = true ↔ 0 < hIdle.current_homophily)) :=
  ⟨rfl, c6_empty_neighborhood_human hIdle 0 rfl⟩

/-- Claim C3, counterexample: in the `exploit` branch a recommendation
attempt counts as successful (tracked as influence, reward 0.7 paid) for a
user whose `engagement_rate` does NOT exceed its `base_homophily` — the
engagement condition of the claim is not part of the code's `exploit`
success test. -/
theorem c3_exploit_success_without_engagement :
    (executeRecommendationAction rAlgA RecAction.exploit [uA]).toOption.map
        (fun s => (s.1.ih_recommendation_influence, s.2)) = some (1, 0.7) ∧
    ¬ uA.base_homophily < uA.engagement_rate := by
  norm_num [executeRecommendationAction, foldE, rAlgA, uA, mkRecSys, mkHuman,
    generateRecommendations, lookupAssoc, trackInteraction, insertNew,
    recRewardLookup, recRewards, Except.toOption]

/-- Claim C3, amended: for a recommendation-algorithm agent acting on a
single human user, an `exploit` attempt is successful (pays its 0.7 reward)
iff the recommended category equals the user's preference — the user's
engagement is not consulted — while an `explore` attempt is made only when
the recommendation differs from the user's preference and is successful
(pays its 0.4 reward) iff additionally `engagement_rate` exceeds
`base_homophily`. -/
theorem c3_success_conditions (a u : Agent) (ha1 : a.type = 1)
    (ha2 : a.ai_subtype = 1) (hu : u.type = 0) :
    ((executeRecommendationAction a RecAction.exploit [u]).toOption.map Prod.snd =
        some 0.7 ↔ generateRecommendations a u = some u.preference) ∧
    ((executeRecommendationAction a RecAction.explore [u]).toOption.map Prod.snd =
        some 0.4 ↔
      (generateRecommendations a u ≠ some u.preference ∧
        u.base_homophily < u.engagement_rate)) := by
  constructor
  · by_cases hgen : generateRecommendations a u = some u.preference
    · norm_num [executeRecommendationAction, foldE, hu, hgen, recRewardLookup,
        recRewards, Except.toOption]
    · norm_num [executeRecommendationAction, foldE, hu, hgen, recRewardLookup,
        recRewards, Except.toOption]
  · by_cases hgen : generateRecommendations a u = some u.preference
    · norm_num [executeRecommendationAction, foldE, hu, hgen, Except.toOption]
    · by_cases heng : u.base_homophily < u.engagement_rate
      · norm_num [executeRecommendationAction, foldE, hu, hgen, heng,
          recRewardLookup, recRewards, Except.toOption]
      · norm_num [executeRecommendationAction, foldE, hu, hgen, heng,
          Except.toOption]

/-- A human whose engagement exceeds its homophily, preference 0. -/
def uW : Agent := mkHuman 7 0 0.2 0.9

/-- A recommendation algorithm holding a profile for `uW` whose view counts
favor category 1, so the generated recommendation differs from `uW`'s
preference. -/
def rAlgW : Agent :=
  { mkRecSys 9 0 0.4 0.5 with
    user_profiles :=
      [(7, { preference := 0, engagement_history := [],
             views0 := 0, views1 := 5, views2 := 0 })] }

/-- Claim C3, witness: the amended statement applied to the concrete
recommendation algorithm and user. -/
theorem c3_success_conditions_witness :
    rAlgW.type = 1 ∧ rAlgW.ai_subtype = 1 ∧ uW.type = 0 ∧
    (((executeRecommendationAction rAlgW RecAction.exploit [uW]).toOption.map
        Prod.snd = some 0.7 ↔
      generateRecommendations rAlgW uW = some uW.preference) ∧
     ((executeRecommendationAction rAlgW RecAction.explore [uW]).toOption.map
        Prod.snd = some 0.4 ↔
      (generateRecommendations rAlgW uW ≠ some uW.preference ∧
        uW.base_homophily < uW.engagement_rate))) :=
  ⟨rfl, rfl, rfl, c3_success_conditions rAlgW uW rfl rfl rfl⟩

/-- Bounds for the human homophily update `min(1, base + boost*echo)` under
the ranges the engagement weights allow. -/
theorem homophily_update_bounds (base echo boost : ℚ) (hb1 : base ≤ 1)
    (he0 : 0 ≤ echo) (he1 : echo ≤ 1) (hbo0 : 0 ≤ boost) (hbo1 : boost ≤ 0.15) :
    base ≤ min 1.0 (base + boost * echo) ∧
    min 1.0 (base + boost * echo) ≤ min 1 (base + 0.15) := by
  constructor
  · exact le_min (by linarith) (le_add_of_nonneg_right (mul_nonneg hbo0 he0))
  · refine min_le_min (by norm_num) ?_
    have hbe : boost * echo ≤ 0.15 := le_trans (mul_le_of_le_one_right hbo0 he1) hbo1
    linarith

/-- Claim C10: every assignment `_process_engagement` makes to a human's
`current_homophily` recomputes it from the immutable `base_homophily` as
`min(1, base_homophily + boost*echo_chamber_strength)` with the drawn boost
at most 0.15 (and `base_homophily` itself untouched), so with
`base_homophily ∈ [0,1]` and `echo_chamber_strength ∈ [0,1]` the result
always lies in `[base_homophily, min(1, base_homophily + 0.15)]`; since the
value never depends on the previous `current_homophily`, boosts cannot
accumulate across ticks. -/
theorem c10_human_homophily_recomputed (a : Agent) (r : ℚ) (h : a.type = 0)
    (hb1 : a.base_homophily ≤ 1)
    (he0 : 0 ≤ a.echo_chamber_strength) (he1 : a.echo_chamber_strength ≤ 1) :
    engagementBoost r ≤ 0.15 ∧
    (processEngagement a r).base_homophily = a.base_homophily ∧
    (processEngagement a r).current_homophily =
      min 1.0 (a.base_homophily + engagementBoost r * a.echo_chamber_strength) ∧
    a.base_homophily ≤ (processEngagement a r).current_homophily ∧
    (processEngagement a r).current_homophily ≤ min 1 (a.base_homophily + 0.15) := by
  have hbo0 : 0 ≤ engagementBoost r := by
    unfold engagementBoost
    split_ifs <;> norm_num
  have hbo1 : engagementBoost r ≤ 0.15 := by
    unfold engagementBoost
    split_ifs <;> norm_num
  have heq : (processEngagement a r).current_homophily =
      min 1.0 (a.base_homophily + engagementBoost r * a.echo_chamber_strength) ∧
      (processEngagement a r).base_homophily = a.base_homophily := by
    rcases lt_or_le r 0.5 with h1 | h1
    · constructor <;> simp [processEngagement, engagementBoost, h1, h]
    · rcases lt_or_le r 0.8 with h2 | h2
      · constructor <;>
          simp [processEngagement, engagementBoost, not_lt.mpr h1, h2, h]
      · constructor <;>
          simp [processEngagement, engagementBoost, not_lt.mpr h1, not_lt.mpr h2, h]
  have hb := homophily_update_bounds a.base_homophily a.echo_chamber_strength
    (engagementBoost r) hb1 he0 he1 hbo0 hbo1
  refine ⟨hbo1, heq.2, heq.1, ?_, ?_⟩
  · rw [heq.1]
    exact hb.1
  · rw [heq.1]
    exact hb.2

/-- A human inside a partial echo chamber, the witness input for C10. -/
def hEng : Agent := { mkHuman 13 0 0.4 0.5 with echo_chamber_strength := 0.5 }

/-- Claim C10, witness: the bounds applied to the concrete human with the
draw 0.6 (a comment, boost 0.10). -/
theorem c10_human_homophily_recomputed_witness :
    hEng.type = 0 ∧ hEng.base_homophily ≤ 1 ∧
    0 ≤ hEng.echo_chamber_strength ∧ hEng.echo_chamber_strength ≤ 1 ∧
    (engagementBoost 0.6 ≤ 0.15 ∧
     (processEngagement hEng 0.6).base_homophily = hEng.base_homophily ∧
     (processEngagement hEng 0.6).current_homophily =
       min 1.0 (hEng.base_homophily + engagementBoost 0.6 * hEng.echo_chamber_strength) ∧
     hEng.base_homophily ≤ (processEngagement hEng 0.6).current_homophily ∧
     (processEngagement hEng 0.6).current_homophily ≤
       min 1 (hEng.base_homophily + 0.15)) :=
  ⟨rfl, by norm_num [hEng, mkHuman], by norm_num [hEng, mkHuman],
   by norm_num [hEng, mkHuman],
   c10_human_homophily_recomputed hEng 0.6 rfl (by norm_num [hEng, mkHuman])
     (by norm_num [hEng, mkHuman]) (by norm_num [hEng, mkHuman])⟩

/-- A successful lookup pinpoints an entry of the association list. -/
theorem lookupAssoc_mem {α : Type} (l : List (Nat × α)) (k : Nat) (v : α) :
    lookupAssoc l k = some v → (k, v) ∈ l := by
  induction l with
  | nil =>
    intro h
    simp [lookupAssoc] at h
  | cons q rest ih =>
    rcases q with ⟨k2, w⟩
    intro h
    by_cases hk : k2 = k
    · subst hk
      simp [lookupAssoc] at h
      simp [h]
    · simp only [lookupAssoc, if_neg hk] at h
      exact List.mem_cons_of_mem _ (ih h)

/-- Every entry after a keyed update is an old entry or the written pair. -/
theorem setAssoc_mem {α : Type} (l : List (Nat × α)) (k : Nat) (v : α)
    (p : Nat × α) : p ∈ setAssoc l k v → p ∈ l ∨ p = (k, v) := by
  induction l with
  | nil =>
    intro h
    simp [setAssoc] at h
    exact Or.inr h
  | cons q rest ih =>
    rcases q with ⟨k2, w⟩
    intro h
    by_cases hk : k2 = k
    · subst hk
      rw [show setAssoc ((k2, w) :: rest) k2 v = (k2, v) :: rest by
            simp [setAssoc],
          List.mem_cons] at h
      rcases h with h1 | h1
      · exact Or.inr h1
      · exact Or.inl (List.mem_cons_of_mem _ h1)
    · rw [show setAssoc ((k2, w) :: rest) k v = (k2, w) :: setAssoc rest k v by
            simp [setAssoc, hk],
          List.mem_cons] at h
      rcases h with h1 | h1
      · exact Or.inl (List.mem_cons.mpr (Or.inl h1))
      · rcases ih h1 with h2 | h2
        · exact Or.inl (List.mem_cons_of_mem _ h2)
        · exact Or.inr h2

/-- The computed connection strength is capped at 1 by the final `min`. -/
theorem connectionStrength_le_one (a : Agent) (conns : List (Nat × Connection))
    (other : Agent) : connectionStrength a conns other ≤ 1 :=
  le_trans (min_le_left _ _) (by norm_num)

/-- One iteration of the connection-update loop keeps every stored strength
in `(connection_threshold, 1]`, given that the incoming strengths were at
most 1. -/
theorem updateConnOne_invariant (a : Agent) (sc : Nat) (n : Agent)
    (conns : List (Nat × Connection))
    (h : ∀ p ∈ conns, (Prod.snd p).strength ≤ 1) :
    ∀ p ∈ updateConnOne a sc n conns,
      connection_threshold < (Prod.snd p).strength ∧ (Prod.snd p).strength ≤ 1 := by
  intro p hp
  simp only [updateConnOne, List.mem_filter] at hp
  obtain ⟨hmem, hdec⟩ := hp
  have hlt : connection_threshold < p.2.strength := of_decide_eq_true hdec
  refine ⟨hlt, ?_⟩
  have hcs : connectionStrength a conns n ≤ 1 := connectionStrength_le_one a conns n
  by_cases hgate : connection_threshold < connectionStrength a conns n
  · rw [if_pos hgate] at hmem
    cases hlook : lookupAssoc conns n.unique_id with
    | none =>
      rw [hlook] at hmem
      rw [List.mem_append] at hmem
      rcases hmem with hmem | hmem
      · exact h p hmem
      · simp only [List.mem_singleton] at hmem
        subst hmem
        exact hcs
    | some c =>
      rw [hlook] at hmem
      rcases setAssoc_mem _ _ _ _ hmem with hmem | hmem
      · exact h p hmem
      · have hc : (n.unique_id, c) ∈ conns := lookupAssoc_mem _ _ _ hlook
        have hcle : c.strength ≤ 1 := h _ hc
        subst hmem
        show c.strength * 0.8 + connectionStrength a conns n * 0.2 ≤ 1
        linarith
  · rw [if_neg hgate] at hmem
    exact h p hmem

/-- Claim C7: if every stored connection has strength in
`(connection_threshold, 1]` before `_update_network_connections` runs, the
same holds after it runs over any neighbor list — new edges are only created
above the threshold, blends `old*0.8 + new*0.2` of values at most 1 stay at
most 1, and each loop iteration prunes every entry not above the threshold.
Since `__init__` starts every agent with no connections, the invariant holds
at every reachable state. -/
theorem c7_connections_invariant (a : Agent) (sc : Nat) (ns : List Agent)
    (h : ∀ p ∈ a.connections,
      connection_threshold < (Prod.snd p).strength ∧ (Prod.snd p).strength ≤ 1) :
    ∀ p ∈ updateNetworkConnections a sc ns,
      connection_threshold < (Prod.snd p).strength ∧ (Prod.snd p).strength ≤ 1 := by
  have key : ∀ (l : List Agent) (conns : List (Nat × Connection)),
      (∀ p ∈ conns,
        connection_threshold < (Prod.snd p).strength ∧ (Prod.snd p).strength ≤ 1) →
      ∀ p ∈ l.foldl (fun acc n => updateConnOne a sc n acc) conns,
        connection_threshold < (Prod.snd p).strength ∧ (Prod.snd p).strength ≤ 1 := by
    intro l
    induction l with
    | nil =>
      intro conns hc p hp
      exact hc p hp
    | cons x t ih =>
      intro conns hc p hp
      rw [List.foldl_cons] at hp
      refine ih _ ?_ p hp
      intro q hq
      exact updateConnOne_invariant a sc x conns (fun r hr => (hc r hr).2) q hq
  exact key ns a.connections h

/-- Concrete agent with one stored connection of strength 0.6. -/
def wConnAgent : Agent :=
  { mkHuman 20 0 0.4 0.5 with
    connections :=
      [(5, { strength := 0.6, last_interaction := 0,
             shared_preferences := true, interaction_count := 1 })] }

/-- Concrete neighbor for the C7 witness. -/
def wConnNb : Agent := mkHuman 5 0 0.4 0.5

/-- Claim C7, witness: the invariant applied to the concrete agent and a
one-element neighborhood. -/
theorem c7_connections_invariant_witness :
    (∀ p ∈ wConnAgent.connections,
      connection_threshold < (Prod.snd p).strength ∧ (Prod.snd p).strength ≤ 1) ∧
    (∀ p ∈ updateNetworkConnections wConnAgent 1 [wConnNb],
      connection_threshold < (Prod.snd p).strength ∧ (Prod.snd p).strength ≤ 1) :=
  ⟨by
    intro p hp
    simp only [wConnAgent, mkHuman, List.mem_singleton] at hp
    subst hp
    norm_num [connection_threshold],
   c7_connections_invariant wConnAgent 1 [wConnNb]
    (by
      intro p hp
      simp only [wConnAgent, mkHuman, List.mem_singleton] at hp
      subst hp
      norm_num [connection_threshold])⟩

/-- The Learn rule never changes the agent-type fields it is guarded by. -/
theorem updateRecommendationModel_guard (a : Agent) (b : Bool) :
    (updateRecommendationModel a b).type = a.type ∧
    (updateRecommendationModel a b).ai_subtype = a.ai_subtype := by
  unfold updateRecommendationModel
  split_ifs <;> exact ⟨rfl, rfl⟩

/-- Iterating the Learn rule never changes the agent-type fields. -/
theorem recIter_guard (b : Bool) (n : Nat) (a : Agent) :
    (recIter b n a).type = a.type ∧ (recIter b n a).ai_subtype = a.ai_subtype := by
  induction n with
  | zero => exact ⟨rfl, rfl⟩
  | succ n ih =>
    have h := updateRecommendationModel_guard (recIter b n a) b
    exact ⟨h.1.trans ih.1, h.2.trans ih.2⟩

/-- Closed form of the success-rate EMA under an unbroken run of failures. -/
theorem recIter_fail_closed (a : Agent) (h1 : a.type = 1) (h2 : a.ai_subtype = 1)
    (n : Nat) :
    (recIter false n a).success_rate = a.success_rate * (9 / 10 : ℚ) ^ n := by
  induction n with
  | zero => simp [recIter]
  | succ n ih =>
    have hg := recIter_guard false n a
    have hstep : (updateRecommendationModel (recIter false n a) false).success_rate =
        (recIter false n a).success_rate * 0.9 := by
      unfold updateRecommendationModel
      rw [if_neg]
      · rfl
      · rw [hg.1, hg.2, h1, h2]
        simp
    have h09 : (0.9 : ℚ) = 9 / 10 := by norm_num
    show (updateRecommendationModel (recIter false n a) false).success_rate = _
    rw [hstep, ih, h09, pow_succ]
    ring

/-- Closed form of the success-rate EMA under an unbroken run of successes. -/
theorem recIter_succ_closed (a : Agent) (h1 : a.type = 1) (h2 : a.ai_subtype = 1)
    (n : Nat) :
    (recIter true n a).success_rate =
      1 - (1 - a.success_rate) * (9 / 10 : ℚ) ^ n := by
  induction n with
  | zero => simp [recIter]
  | succ n ih =>
    have hg := recIter_guard true n a
    have hstep : (updateRecommendationModel (recIter true n a) true).success_rate =
        (recIter true n a).success_rate * 0.9 + 0.1 * 1.0 := by
      unfold updateRecommendationModel
      rw [if_neg]
      · rfl
      · rw [hg.1, hg.2, h1, h2]
        simp
    have h09 : (0.9 : ℚ) = 9 / 10 := by norm_num
    have h01 : (0.1 * 1.0 : ℚ) = 1 / 10 := by norm_num
    show (updateRecommendationModel (recIter true n a) true).success_rate = _
    rw [hstep, ih, h09, h01, pow_succ]
    ring

/-- Claim C8: for a recommendation-algorithm agent whose `success_rate` lies
in `[0,1]`, an unbroken run of failure updates of
`_update_recommendation_model` is monotonically non-increasing, stays
nonnegative and converges toward 0 (below any positive ε eventually), and an
unbroken run of success updates is monotonically non-decreasing, stays at
most 1 and converges toward 1 (within any positive ε eventually). -/
theorem c8_success_rate_ema (a : Agent) (h1 : a.type = 1) (h2 : a.ai_subtype = 1)
    (h0 : 0 ≤ a.success_rate) (hle : a.success_rate ≤ 1) :
    (∀ m n : Nat, m ≤ n →
      (recIter false n a).success_rate ≤ (recIter false m a).success_rate) ∧
    (∀ n : Nat, 0 ≤ (recIter false n a).success_rate) ∧
    (∀ ε : ℚ, 0 < ε → ∃ N : Nat, ∀ n : Nat, N ≤ n →
      (recIter false n a).success_rate < ε) ∧
    (∀ m n : Nat, m ≤ n →
      (recIter true m a).success_rate ≤ (recIter true n a).success_rate) ∧
    (∀ n : Nat, (recIter true n a).success_rate ≤ 1) ∧
    (∀ ε : ℚ, 0 < ε → ∃ N : Nat, ∀ n : Nat, N ≤ n →
      1 - (recIter true n a).success_rate < ε) := by
  have q0 : (0 : ℚ) ≤ 9 / 10 := by norm_num
  have q1 : (9 / 10 : ℚ) ≤ 1 := by norm_num
  have qlt : (9 / 10 : ℚ) < 1 := by norm_num
  refine ⟨?_, ?_, ?_, ?_, ?_, ?_⟩
  · intro m n hmn
    rw [recIter_fail_closed a h1 h2 n, recIter_fail_closed a h1 h2 m]
    exact mul_le_mul_of_nonneg_left (pow_le_pow_of_le_one q0 q1 hmn) h0
  · intro n
    rw [recIter_fail_closed a h1 h2 n]
    exact mul_nonneg h0 (pow_nonneg q0 n)
  · intro ε hε
    obtain ⟨N, hN⟩ := exists_pow_lt_of_lt_one hε qlt
    refine ⟨N, fun n hn => ?_⟩
    rw [recIter_fail_closed a h1 h2 n]
    calc a.success_rate * (9 / 10 : ℚ) ^ n
        ≤ 1 * (9 / 10 : ℚ) ^ n := mul_le_mul_of_nonneg_right hle (pow_nonneg q0 n)
      _ = (9 / 10 : ℚ) ^ n := one_mul _
      _ ≤ (9 / 10 : ℚ) ^ N := pow_le_pow_of_le_one q0 q1 hn
      _ < ε := hN
  · intro m n hmn
    rw [recIter_succ_closed a h1 h2 n, recIter_succ_closed a h1 h2 m]
    have hs : 0 ≤ 1 - a.success_rate := by linarith
    have := mul_le_mul_of_nonneg_left (pow_le_pow_of_le_one q0 q1 hmn) hs
    linarith
  · intro n
    rw [recIter_succ_closed a h1 h2 n]
    have := mul_nonneg (show 0 ≤ 1 - a.success_rate by linarith) (pow_nonneg q0 n)
    linarith
  · intro ε hε
    obtain ⟨N, hN⟩ := exists_pow_lt_of_lt_one hε qlt
    refine ⟨N, fun n hn => ?_⟩
    rw [recIter_succ_closed a h1 h2 n]
    have hs1 : 1 - a.success_rate ≤ 1 := by linarith
    have hchain : (1 - a.success_rate) * (9 / 10 : ℚ) ^ n < ε :=
      calc (1 - a.success_rate) * (9 / 10 : ℚ) ^ n
          ≤ 1 * (9 / 10 : ℚ) ^ n := mul_le_mul_of_nonneg_right hs1 (pow_nonneg q0 n)
        _ = (9 / 10 : ℚ) ^ n := one_mul _
        _ ≤ (9 / 10 : ℚ) ^ N := pow_le_pow_of_le_one q0 q1 hn
        _ < ε := hN
    linarith

/-- Claim C8, witness: the EMA statement applied to a fresh recommendation
algorithm (success_rate 0). -/
theorem c8_success_rate_ema_witness :
    rAlgA.type = 1 ∧ rAlgA.ai_subtype = 1 ∧
    0 ≤ rAlgA.success_rate ∧ rAlgA.success_rate ≤ 1 ∧
    ((∀ m n : Nat, m ≤ n →
      (recIter false n rAlgA).success_rate ≤ (recIter false m rAlgA).success_rate) ∧
    (∀ n : Nat, 0 ≤ (recIter false n rAlgA).success_rate) ∧
    (∀ ε : ℚ, 0 < ε → ∃ N : Nat, ∀ n : Nat, N ≤ n →
      (recIter false n rAlgA).success_rate < ε) ∧
    (∀ m n : Nat, m ≤ n →
      (recIter true m rAlgA).success_rate ≤ (recIter true n rAlgA).success_rate) ∧
    (∀ n : Nat, (recIter true n rAlgA).success_rate ≤ 1) ∧
    (∀ ε : ℚ, 0 < ε → ∃ N : Nat, ∀ n : Nat, N ≤ n →
      1 - (recIter true n rAlgA).success_rate < ε)) :=
  ⟨rfl, rfl, by norm_num [rAlgA, mkRecSys, mkHuman],
   by norm_num [rAlgA, mkRecSys, mkHuman],
   c8_success_rate_ema rAlgA rfl rfl
     (by norm_num [rAlgA, mkRecSys, mkHuman])
     (by norm_num [rAlgA, mkRecSys, mkHuman])⟩

end EchoChamber
